import Mathlib

/-!
Verification development for PyHRGetBasinData: a shallow embedding of the
basin data acquisition pipeline (config.py, huc10_index.py, dem.py,
flowlines.py, roads.py, io_utils.py, app_streamlit.py) together with
theorems about its CRS handling, caching, error propagation and
persistence behaviour.

Modelling conventions:
- Geometries are finite lists of integer coordinate pairs (shapely
  geometries carry no CRS of their own, matching the Python code where the
  CRS travels separately as an EPSG integer).
- The remote services (py3dep, pynhd NHDPlusHR, osmnx, pygeohydro WBD),
  the coordinate transform applied by GeoSeries.to_crs / rio.reproject,
  and filesystem write success are an explicit environment `Env`.
- Python exceptions are values of `Err` in an `Except` result:
  `Err.valueError` is the ValueError raised by get_huc10_geometry,
  `Err.libError` is an exception propagating out of an underlying client
  library, `Err.osError` a failing filesystem write.
- The filesystem is a map from path strings to file data plus a set of
  created directories; a write shadows the previous entry for the path.
-/

namespace BasinData

/-- config.py: AZ_STATE_ABBR = "AZ". -/
def AZ_STATE_ABBR : String := "AZ"

/-- config.py: CRS_GEO = 4326 (WGS84). -/
def CRS_GEO : Nat := 4326

/-- config.py: CRS_UTM = 32612 (UTM Zone 12N). -/
def CRS_UTM : Nat := 32612

/-- config.py: DEM_RES_M = 30. -/
def DEM_RES_M : Nat := 30

/-- config.py: DATA_DIR = "data". -/
def DATA_DIR : String := "data"

/-- A shapely polygon/multipolygon value: a finite list of coordinate
pairs (scaled to integers). It carries no CRS, as in the Python code. -/
structure Geom where
  points : List (Int × Int)
deriving DecidableEq, Repr

/-- A raster DataArray as returned by py3dep / produced by rio.reproject:
a grid of cell values together with the CRS recorded on the array
(`dem.rio.crs`). -/
structure Raster where
  grid : List (List Int)
  crs : Nat
deriving DecidableEq, Repr

/-- One feature row of a GeoDataFrame: named attribute cells plus a
geometry column. -/
structure Row where
  cells : List (String × String)
  geometry : Geom
deriving DecidableEq, Repr

/-- A GeoDataFrame: feature rows plus the frame-level CRS. -/
structure GeoDataFrame where
  rows : List Row
  crs : Nat
deriving DecidableEq, Repr

/-- Python exception values crossing the embedded functions. -/
inductive Err where
  | valueError (msg : String)
  | libError (msg : String)
  | osError (path : String)
deriving DecidableEq, Repr

/-- The road graph returned by osmnx.graph_from_polygon: node and edge
tables (graph_to_gdfs splits it into the two GeoDataFrames). -/
structure RoadGraph where
  nodes : List Row
  edges : List Row
deriving DecidableEq, Repr

/-- Data stored in one on-disk file: a vector file (GPKG with one named
layer) or a raster file (GeoTIFF). -/
inductive FileData where
  | vector (layer : String) (gdf : GeoDataFrame)
  | raster (r : Raster)
deriving DecidableEq, Repr

/-- The filesystem state: path → file data (head entry shadows older
ones), plus the set of directories created so far. -/
structure FS where
  files : List (String × FileData)
  dirs : List String
deriving DecidableEq, Repr

/-- Path.exists(). -/
def FS.existsFile (fs : FS) (p : String) : Bool :=
  (fs.files.lookup p).isSome

/-- Read the data stored at a path, if any. -/
def FS.read (fs : FS) (p : String) : Option FileData :=
  fs.files.lookup p

/-- Overwrite the file at a path (the new entry shadows any older one). -/
def FS.write (fs : FS) (p : String) (d : FileData) : FS :=
  { fs with files := (p, d) :: fs.files }

/-- Path.mkdir(parents=True, exist_ok=True). -/
def FS.mkdir (fs : FS) (d : String) : FS :=
  if fs.dirs.contains d then fs else { fs with dirs := d :: fs.dirs }

/-- The environment: the remote services, the coordinate transform the
geopandas/rioxarray libraries apply, and which filesystem writes
succeed. -/
structure Env where
  /-- GeoSeries([g], crs=a).to_crs(b).iloc[0]: the coordinate transform
  from EPSG a to EPSG b applied pointwise to a geometry. -/
  transform : Nat → Nat → Geom → Geom
  /-- The resampling rio.reproject applies to the raster grid when
  warping from EPSG a to EPSG b. -/
  rasterWarp : Nat → Nat → List (List Int) → List (List Int)
  /-- py3dep.get_dem(geometry, resolution): a raster in the service's
  native CRS, or an exception. -/
  demService : Geom → Nat → Except Err Raster
  /-- NHDPlusHR(layer, crs=CRS_GEO).bygeom(geom, geo_crs): feature rows
  in the requested output CRS, or an exception. -/
  nhdService : String → Geom → Nat → Except Err (List Row)
  /-- osmnx.graph_from_polygon(polygon, network_type): a road graph in
  EPSG:4326, or an exception. -/
  osmService : Geom → String → Except Err RoadGraph
  /-- WBD(layer, crs=CRS_GEO).bysql(sql): boundary feature rows in the
  requested CRS, or an exception. -/
  wbdService : String → String → Except Err (List Row)
  /-- Whether a write (to_file / rio.to_raster) to the given path
  succeeds. -/
  writeOk : String → Bool

/-- GeoDataFrame.to_crs(target): transform every geometry and set the
frame CRS to the target (the library guarantees the result is tagged with
the target CRS). -/
def gdf_to_crs (env : Env) (gdf : GeoDataFrame) (target : Nat) : GeoDataFrame :=
  { rows := gdf.rows.map fun r => { r with geometry := env.transform gdf.crs target r.geometry }
    crs := target }

/-- DataArray.rio.reproject(dst): warp the grid and tag the result with
the destination CRS. -/
def rio_reproject (env : Env) (r : Raster) (dst : Nat) : Raster :=
  { grid := env.rasterWarp r.crs dst r.grid, crs := dst }

/-- The shared CRS-normalization step at the top of each fetcher:
`if geometry_crs != CRS_GEO: geom_ll = GeoSeries([geometry],
crs=geometry_crs).to_crs(CRS_GEO).iloc[0] else: geom_ll = geometry`.
This is exactly the geometry each fetcher passes to its remote service. -/
def geom_to_geo (env : Env) (geometry : Geom) (geometry_crs : Nat) : Geom :=
  if geometry_crs ≠ CRS_GEO then env.transform geometry_crs CRS_GEO geometry
  else geometry

/-- dem.py get_dem_for_geometry: normalize the geometry to 4326, call
py3dep.get_dem at DEM_RES_M, reproject the DEM to CRS_UTM. -/
def get_dem_for_geometry (env : Env) (geometry : Geom) (geometry_crs : Nat) :
    Except Err Raster :=
  let geom_ll := geom_to_geo env geometry geometry_crs
  match env.demService geom_ll DEM_RES_M with
  | .error e => .error e
  | .ok dem => .ok (rio_reproject env dem CRS_UTM)

/-- flowlines.py get_flowlines_for_geometry: normalize the geometry to
4326, query NHDPlusHR "flowline" by geometry (output CRS 4326), reproject
the result to CRS_UTM. -/
def get_flowlines_for_geometry (env : Env) (geometry : Geom) (geometry_crs : Nat) :
    Except Err GeoDataFrame :=
  let geom_ll := geom_to_geo env geometry geometry_crs
  match env.nhdService "flowline" geom_ll CRS_GEO with
  | .error e => .error e
  | .ok fl => .ok (gdf_to_crs env { rows := fl, crs := CRS_GEO } CRS_UTM)

/-- roads.py get_roads_for_geometry: normalize the geometry to 4326,
download the street network (network_type "all_public"), keep only the
edge table from graph_to_gdfs, reproject the edges to CRS_UTM. -/
def get_roads_for_geometry (env : Env) (geometry : Geom) (geometry_crs : Nat) :
    Except Err GeoDataFrame :=
  let geom_ll := geom_to_geo env geometry geometry_crs
  match env.osmService geom_ll "all_public" with
  | .error e => .error e
  | .ok G =>
      let edges : GeoDataFrame := { rows := G.edges, crs := CRS_GEO }
      .ok (gdf_to_crs env edges CRS_UTM)

/-- huc10_index.py: WBD_LAYER = "huc10". -/
def WBD_LAYER : String := "huc10"

/-- The single-quote character used in the SQL literal. -/
def sq : String := (Char.ofNat 39).toString

/-- huc10_index.py: the fixed region filter
f"States LIKE '%{AZ_STATE_ABBR}%'" passed to WBD.bysql. -/
def az_sql : String := "States LIKE " ++ sq ++ "%" ++ AZ_STATE_ABBR ++ "%" ++ sq

/-- The column rename gdf.rename(columns={"HUC10": "huc10", "Name":
"name"}) applied to one attribute cell. -/
def rename_cell (c : String × String) : String × String :=
  if c.1 = "HUC10" then ("huc10", c.2)
  else if c.1 = "Name" then ("name", c.2)
  else c

/-- The column rename applied to a whole GeoDataFrame. -/
def rename_cols (gdf : GeoDataFrame) : GeoDataFrame :=
  { gdf with rows := gdf.rows.map fun r => { r with cells := r.cells.map rename_cell } }

/-- huc10_index.py fetch_az_huc10_index: query WBD("huc10", crs=CRS_GEO)
with the fixed AZ filter, then rename the HUC10/Name columns. -/
def fetch_az_huc10_index (env : Env) : Except Err GeoDataFrame :=
  match env.wbdService WBD_LAYER az_sql with
  | .error e => .error e
  | .ok rows => .ok (rename_cols { rows := rows, crs := CRS_GEO })

/-- huc10_index.py: index_path = Path(DATA_DIR) / "az_huc10.gpkg". -/
def index_path : String := DATA_DIR ++ "/az_huc10.gpkg"

/-- gpd.read_file at a path: a vector file yields its GeoDataFrame;
anything else raises. -/
def gpd_read_file (fs : FS) (p : String) : Except Err GeoDataFrame :=
  match fs.read p with
  | some (.vector _ g) => .ok g
  | some (.raster _) => .error (.valueError "not a vector file")
  | none => .error (.valueError "no such file")

/-- huc10_index.py load_or_build_az_huc10_index: mkdir the data dir; if
the index file exists, read and return it; otherwise fetch from WBD,
write the result to the index file (GPKG, layer "huc10") and return it. -/
def load_or_build_az_huc10_index (env : Env) (fs : FS) :
    Except Err GeoDataFrame × FS :=
  let fs1 := fs.mkdir DATA_DIR
  if fs1.existsFile index_path then
    (gpd_read_file fs1 index_path, fs1)
  else
    match fetch_az_huc10_index env with
    | .error e => (.error e, fs1)
    | .ok gdf =>
        if env.writeOk index_path then
          (.ok gdf, fs1.write index_path (.vector "huc10" gdf))
        else
          (.error (.osError index_path), fs1)

/-- gdf.loc[gdf["huc10"] == huc10_id]: the rows whose huc10 cell equals
the id. -/
def matching_rows (gdf : GeoDataFrame) (huc10_id : String) : List Row :=
  gdf.rows.filter fun r => r.cells.lookup "huc10" == some huc10_id

/-- huc10_index.py get_huc10_geometry: load or build the index, select
the rows matching the id, raise ValueError when none match, else take the
first row's geometry and reproject it iff the index CRS differs from the
requested one. -/
def get_huc10_geometry (env : Env) (fs : FS) (huc10_id : String) (crs : Nat) :
    Except Err Geom × FS :=
  match load_or_build_az_huc10_index env fs with
  | (.error e, fs1) => (.error e, fs1)
  | (.ok gdf, fs1) =>
      match matching_rows gdf huc10_id with
      | [] => (.error (.valueError ("HUC10 " ++ huc10_id ++ " not found in Arizona index")), fs1)
      | r :: _ =>
          let geom := r.geometry
          if gdf.crs ≠ crs then (.ok (env.transform gdf.crs crs geom), fs1)
          else (.ok geom, fs1)

/-- io_utils.py make_huc_output_dir: the per-id directory
Path(DATA_DIR) / f"huc10_\x7bhuc10_id\x7d", created with mkdir. -/
def make_huc_output_dir (fs : FS) (huc10_id : String) : String × FS :=
  let base := DATA_DIR ++ "/huc10_" ++ huc10_id
  (base, fs.mkdir base)

/-- io_utils.py save_roads: write out_dir/roads.gpkg (layer "roads") and
return the path. -/
def save_roads (env : Env) (roads_gdf : GeoDataFrame) (out_dir : String) (fs : FS) :
    Except Err String × FS :=
  let roads_path := out_dir ++ "/roads.gpkg"
  if env.writeOk roads_path then
    (.ok roads_path, fs.write roads_path (.vector "roads" roads_gdf))
  else (.error (.osError roads_path), fs)

/-- io_utils.py save_flowlines: write out_dir/flowlines.gpkg (layer
"flowlines") and return the path. -/
def save_flowlines (env : Env) (flow_gdf : GeoDataFrame) (out_dir : String) (fs : FS) :
    Except Err String × FS :=
  let flow_path := out_dir ++ "/flowlines.gpkg"
  if env.writeOk flow_path then
    (.ok flow_path, fs.write flow_path (.vector "flowlines" flow_gdf))
  else (.error (.osError flow_path), fs)

/-- io_utils.py save_dem: write out_dir/dem_30m.tif and return the
path. -/
def save_dem (env : Env) (dem_da : Raster) (out_dir : String) (fs : FS) :
    Except Err String × FS :=
  let dem_path := out_dir ++ "/dem_30m.tif"
  if env.writeOk dem_path then
    (.ok dem_path, fs.write dem_path (.raster dem_da))
  else (.error (.osError dem_path), fs)

/-- app_streamlit.py main, step 3 (lines 92-96): make the per-id output
directory, then save the DEM, the flowlines and the roads in that
order. -/
def persist_outputs (env : Env) (selected_huc10 : String) (dem_utm : Raster)
    (flow_utm roads_utm : GeoDataFrame) (fs : FS) :
    Except Err (String × String × String × String) × FS :=
  let (out_dir, fs1) := make_huc_output_dir fs selected_huc10
  match save_dem env dem_utm out_dir fs1 with
  | (.error e, fs2) => (.error e, fs2)
  | (.ok dem_path, fs2) =>
      match save_flowlines env flow_utm out_dir fs2 with
      | (.error e, fs3) => (.error e, fs3)
      | (.ok flow_path, fs3) =>
          match save_roads env roads_utm out_dir fs3 with
          | (.error e, fs4) => (.error e, fs4)
          | (.ok roads_path, fs4) => (.ok (out_dir, dem_path, flow_path, roads_path), fs4)

/-- app_streamlit.py main, steps 2-3 (lines 85-96): fetch the DEM, the
flowlines and the roads for the already-resolved basin geometry (always
passed with geometry_crs=CRS_GEO), then persist all three; a raised
exception at any step aborts the rest. -/
def download_basin_data (env : Env) (geometry_4326 : Geom) (selected_huc10 : String)
    (fs : FS) :
    Except Err (Raster × GeoDataFrame × GeoDataFrame × String × String × String × String) × FS :=
  match get_dem_for_geometry env geometry_4326 CRS_GEO with
  | .error e => (.error e, fs)
  | .ok dem_utm =>
      match get_flowlines_for_geometry env geometry_4326 CRS_GEO with
      | .error e => (.error e, fs)
      | .ok flow_utm =>
          match get_roads_for_geometry env geometry_4326 CRS_GEO with
          | .error e => (.error e, fs)
          | .ok roads_utm =>
              match persist_outputs env selected_huc10 dem_utm flow_utm roads_utm fs with
              | (.error e, fs1) => (.error e, fs1)
              | (.ok (out_dir, dem_path, flow_path, roads_path), fs1) =>
                  (.ok (dem_utm, flow_utm, roads_utm, out_dir, dem_path, flow_path, roads_path), fs1)

/-! Concrete values used to instantiate the theorems below. -/

/-- A small concrete triangle polygon. -/
def g0 : Geom := ⟨[(0, 0), (4, 0), (0, 3)]⟩

/-- A second concrete polygon, distinct from g0. -/
def g1 : Geom := ⟨[(10, 10), (14, 10), (10, 13)]⟩

/-- A concrete boundary feature row as the WBD service returns it
(columns still named HUC10 / Name). -/
def rowWbd : Row := ⟨[("HUC10", "1502001602"), ("Name", "Agua Fria")], g0⟩

/-- A concrete boundary index row in normalized column form. -/
def rowIdx : Row := ⟨[("huc10", "1502001602"), ("name", "Agua Fria")], g0⟩

/-- A row with the same huc10 id as rowIdx but a different geometry. -/
def rowDup : Row := ⟨[("huc10", "1502001602"), ("name", "Agua Fria B")], g1⟩

/-- A concrete flowline feature row. -/
def rowFlow : Row := ⟨[("comid", "17")], g1⟩

/-- A concrete environment where every service succeeds, the coordinate
transform and raster warp are the identity, and every write succeeds. -/
def envId : Env :=
  { transform := fun _ _ g => g
    rasterWarp := fun _ _ gr => gr
    demService := fun _ _ => .ok { grid := [[1, 2], [3, 4]], crs := 5070 }
    nhdService := fun _ _ _ => .ok [rowFlow]
    osmService := fun _ _ => .ok { nodes := [rowIdx], edges := [rowFlow] }
    wbdService := fun _ _ => .ok [rowWbd]
    writeOk := fun _ => true }

/-- The trivial CRS interpretation that deems every geometry to be in
every CRS; it satisfies the transform-soundness hypotheses below. -/
def inCrsAll : Geom → Nat → Bool := fun _ _ => true

/-- envId with the DEM service unreachable. -/
def envDemFail : Env :=
  { envId with demService := fun _ _ => .error (.libError "HTTP timeout") }

/-- envId with the flowline service returning an empty feature set. -/
def envNhdEmpty : Env :=
  { envId with nhdService := fun _ _ _ => .ok [] }

/-- envId with the flowline service unreachable. -/
def envNhdFail : Env :=
  { envId with nhdService := fun _ _ _ => .error (.libError "connection refused") }

/-- envId where the write of the flowlines file for basin 1502001602
fails and every other write succeeds. -/
def envFlowWriteFail : Env :=
  { envId with writeOk := fun p => p != "data/huc10_1502001602/flowlines.gpkg" }

/-- The empty filesystem. -/
def fs0 : FS := ⟨[], []⟩

/-- A filesystem holding a persisted boundary index file with one
normalized row. -/
def fsIdx : FS := ⟨[(index_path, .vector "huc10" ⟨[rowIdx], CRS_GEO⟩)], [DATA_DIR]⟩

/-- A filesystem whose persisted boundary index holds two rows with the
same huc10 id and different geometries. -/
def fsDup : FS := ⟨[(index_path, .vector "huc10" ⟨[rowIdx, rowDup], CRS_GEO⟩)], [DATA_DIR]⟩

/-- A prior successful DEM output raster. -/
def demOld : Raster := ⟨[[7]], CRS_UTM⟩

/-- The DEM artifact envId's pipeline produces: the service grid warped
by the identity and tagged with the projected CRS. -/
def demNew : Raster := ⟨[[1, 2], [3, 4]], CRS_UTM⟩

/-- A filesystem holding a persisted boundary index file whose columns
were never normalized (still HUC10 / Name). -/
def fsIdxRaw : FS := ⟨[(index_path, .vector "huc10" ⟨[rowWbd], CRS_GEO⟩)], [DATA_DIR]⟩

/-- A filesystem holding the three previously persisted outputs for
basin 1502001602. -/
def fsPrior : FS :=
  ⟨[("data/huc10_1502001602/dem_30m.tif", .raster demOld),
    ("data/huc10_1502001602/flowlines.gpkg", .vector "flowlines" ⟨[rowFlow], CRS_UTM⟩),
    ("data/huc10_1502001602/roads.gpkg", .vector "roads" ⟨[rowFlow], CRS_UTM⟩)],
   [DATA_DIR, "data/huc10_1502001602"]⟩

/-! Helper lemmas about the filesystem model and the index cache. -/

theorem FS.mkdir_files (fs : FS) (d : String) : (fs.mkdir d).files = fs.files := by
  unfold FS.mkdir
  split <;> rfl

theorem FS.mkdir_contains (fs : FS) (d : String) (h : fs.dirs.contains d = true) :
    fs.mkdir d = fs := by
  unfold FS.mkdir
  simp at h
  simp [h]

theorem FS.mkdir_idem (fs : FS) (d : String) : (fs.mkdir d).mkdir d = fs.mkdir d := by
  by_cases h : fs.dirs.contains d = true
  · rw [FS.mkdir_contains fs d h, FS.mkdir_contains fs d h]
  · have h1 : fs.mkdir d = ⟨fs.files, d :: fs.dirs⟩ := by
      unfold FS.mkdir
      simp at h
      simp [h]
    rw [h1]
    exact FS.mkdir_contains _ _ (by simp)

theorem FS.existsFile_mkdir (fs : FS) (d p : String) :
    (fs.mkdir d).existsFile p = fs.existsFile p := by
  unfold FS.existsFile
  rw [FS.mkdir_files]

/-- On a cache hit, load_or_build_az_huc10_index returns the persisted
frame verbatim and only creates the data directory. -/
theorem load_or_build_hit (env : Env) (fs : FS) (l : String) (g : GeoDataFrame)
    (hfile : fs.files.lookup index_path = some (.vector l g)) :
    load_or_build_az_huc10_index env fs = (.ok g, fs.mkdir DATA_DIR) := by
  unfold load_or_build_az_huc10_index
  have h1 : (fs.mkdir DATA_DIR).existsFile index_path = true := by
    unfold FS.existsFile
    rw [FS.mkdir_files, hfile]
    rfl
  have h2 : gpd_read_file (fs.mkdir DATA_DIR) index_path = .ok g := by
    unfold gpd_read_file FS.read
    rw [FS.mkdir_files, hfile]
  simp only [h1, if_true, h2]

theorem FS.read_write_self (fs : FS) (p : String) (d : FileData) :
    (fs.write p d).read p = some d := by
  unfold FS.write FS.read
  simp [List.lookup]

/-- On a cache miss with a reachable boundary service and a succeeding
write, load_or_build_az_huc10_index fetches, renames the columns, writes
the single index file and returns the renamed frame. -/
theorem load_or_build_miss (env : Env) (fs : FS) (rows : List Row)
    (hmiss : fs.files.lookup index_path = none)
    (hsvc : env.wbdService WBD_LAYER az_sql = .ok rows)
    (hw : env.writeOk index_path = true) :
    load_or_build_az_huc10_index env fs
      = (.ok (rename_cols ⟨rows, CRS_GEO⟩),
         (fs.mkdir DATA_DIR).write index_path (.vector "huc10" (rename_cols ⟨rows, CRS_GEO⟩))) := by
  have hfetch : fetch_az_huc10_index env = .ok (rename_cols ⟨rows, CRS_GEO⟩) := by
    unfold fetch_az_huc10_index
    rw [hsvc]
  have h1 : (fs.mkdir DATA_DIR).existsFile index_path = false := by
    unfold FS.existsFile
    rw [FS.mkdir_files, hmiss]
    rfl
  unfold load_or_build_az_huc10_index
  simp only [h1, Bool.false_eq_true, if_false, hfetch, hw, if_true]

/-- On a cache hit whose frame has a row matching the id, resolve takes
the first matching row and reprojects iff the frame CRS differs. -/
theorem get_huc10_geometry_hit (env : Env) (fs : FS) (huc10_id : String) (crs : Nat)
    (l : String) (g : GeoDataFrame) (r : Row) (rest : List Row)
    (hfile : fs.files.lookup index_path = some (.vector l g))
    (hmatch : matching_rows g huc10_id = r :: rest) :
    get_huc10_geometry env fs huc10_id crs
      = (.ok (if g.crs ≠ crs then env.transform g.crs crs r.geometry else r.geometry),
         fs.mkdir DATA_DIR) := by
  unfold get_huc10_geometry
  rw [load_or_build_hit env fs l g hfile]
  simp only [hmatch]
  by_cases hcrs : g.crs ≠ crs
  · rw [if_pos hcrs, if_pos hcrs]
  · rw [if_neg hcrs, if_neg hcrs]

/-! Claim theorems. -/

/-- C1: for every call of each of the three Source Fetchers
(get_dem_for_geometry, get_flowlines_for_geometry, get_roads_for_geometry)
with any polygon geometry and any input CRS code, the geometry passed to
the remote-service query is in the geographic CRS EPSG:4326 (transformed
iff the input CRS differs), and the artifact returned is tagged with the
projected CRS EPSG:32612, never the geographic one. `inCrs` is any
interpretation of "geometry gm is in CRS c" under which the library
transform is sound. -/
theorem c1_fetchers_crs_invariant (env : Env) (inCrs : Geom → Nat → Bool)
    (geometry : Geom) (geometry_crs : Nat)
    (htrans : ∀ a b gm, inCrs gm a = true → inCrs (env.transform a b gm) b = true)
    (hin : inCrs geometry geometry_crs = true) :
    inCrs (geom_to_geo env geometry geometry_crs) CRS_GEO = true
    ∧ (geometry_crs ≠ CRS_GEO →
        geom_to_geo env geometry geometry_crs = env.transform geometry_crs CRS_GEO geometry)
    ∧ (geometry_crs = CRS_GEO → geom_to_geo env geometry geometry_crs = geometry)
    ∧ get_dem_for_geometry env geometry geometry_crs
        = (env.demService (geom_to_geo env geometry geometry_crs) DEM_RES_M).map
            (fun dem => rio_reproject env dem CRS_UTM)
    ∧ get_flowlines_for_geometry env geometry geometry_crs
        = (env.nhdService "flowline" (geom_to_geo env geometry geometry_crs) CRS_GEO).map
            (fun fl => gdf_to_crs env { rows := fl, crs := CRS_GEO } CRS_UTM)
    ∧ get_roads_for_geometry env geometry geometry_crs
        = (env.osmService (geom_to_geo env geometry geometry_crs) "all_public").map
            (fun G => gdf_to_crs env { rows := G.edges, crs := CRS_GEO } CRS_UTM)
    ∧ (∀ r, get_dem_for_geometry env geometry geometry_crs = .ok r →
        r.crs = CRS_UTM ∧ r.crs ≠ CRS_GEO)
    ∧ (∀ gv, get_flowlines_for_geometry env geometry geometry_crs = .ok gv →
        gv.crs = CRS_UTM ∧ gv.crs ≠ CRS_GEO)
    ∧ (∀ gv, get_roads_for_geometry env geometry geometry_crs = .ok gv →
        gv.crs = CRS_UTM ∧ gv.crs ≠ CRS_GEO) := by
  have hgeo : inCrs (geom_to_geo env geometry geometry_crs) CRS_GEO = true := by
    unfold geom_to_geo
    by_cases hc : geometry_crs ≠ CRS_GEO
    · rw [if_pos hc]
      exact htrans _ _ _ hin
    · rw [if_neg hc]
      push_neg at hc
      rw [← hc]
      exact hin
  have hdem : get_dem_for_geometry env geometry geometry_crs
      = (env.demService (geom_to_geo env geometry geometry_crs) DEM_RES_M).map
          (fun dem => rio_reproject env dem CRS_UTM) := by
    unfold get_dem_for_geometry
    cases hsvc : env.demService (geom_to_geo env geometry geometry_crs) DEM_RES_M <;>
      simp [hsvc, Except.map]
  have hflow : get_flowlines_for_geometry env geometry geometry_crs
      = (env.nhdService "flowline" (geom_to_geo env geometry geometry_crs) CRS_GEO).map
          (fun fl => gdf_to_crs env { rows := fl, crs := CRS_GEO } CRS_UTM) := by
    unfold get_flowlines_for_geometry
    cases hsvc : env.nhdService "flowline" (geom_to_geo env geometry geometry_crs) CRS_GEO <;>
      simp [hsvc, Except.map]
  have hroads : get_roads_for_geometry env geometry geometry_crs
      = (env.osmService (geom_to_geo env geometry geometry_crs) "all_public").map
          (fun G => gdf_to_crs env { rows := G.edges, crs := CRS_GEO } CRS_UTM) := by
    unfold get_roads_for_geometry
    cases hsvc : env.osmService (geom_to_geo env geometry geometry_crs) "all_public" <;>
      simp [hsvc, Except.map]
  refine ⟨hgeo, ?_, ?_, hdem, hflow, hroads, ?_, ?_, ?_⟩
  · intro hc
    unfold geom_to_geo
    rw [if_pos hc]
  · intro hc
    unfold geom_to_geo
    rw [if_neg (by simp [hc])]
  · intro r hr
    rw [hdem] at hr
    cases hsvc : env.demService (geom_to_geo env geometry geometry_crs) DEM_RES_M with
    | error e =>
        rw [hsvc] at hr
        exact absurd hr (by simp [Except.map])
    | ok dem =>
        rw [hsvc] at hr
        simp only [Except.map, Except.ok.injEq] at hr
        subst hr
        exact ⟨rfl, by show CRS_UTM ≠ CRS_GEO; decide⟩
  · intro gv hr
    rw [hflow] at hr
    cases hsvc : env.nhdService "flowline" (geom_to_geo env geometry geometry_crs) CRS_GEO with
    | error e =>
        rw [hsvc] at hr
        exact absurd hr (by simp [Except.map])
    | ok fl =>
        rw [hsvc] at hr
        simp only [Except.map, Except.ok.injEq] at hr
        subst hr
        exact ⟨rfl, by show CRS_UTM ≠ CRS_GEO; decide⟩
  · intro gv hr
    rw [hroads] at hr
    cases hsvc : env.osmService (geom_to_geo env geometry geometry_crs) "all_public" with
    | error e =>
        rw [hsvc] at hr
        exact absurd hr (by simp [Except.map])
    | ok G =>
        rw [hsvc] at hr
        simp only [Except.map, Except.ok.injEq] at hr
        subst hr
        exact ⟨rfl, by show CRS_UTM ≠ CRS_GEO; decide⟩

/-- C1 witness: the invariant instantiated at a concrete environment, a
concrete triangle and input CRS 26912 (≠ 4326, so the transform branch is
exercised). -/
theorem c1_fetchers_crs_invariant_witness :
    inCrsAll g0 26912 = true
    ∧ inCrsAll (geom_to_geo envId g0 26912) CRS_GEO = true
    ∧ geom_to_geo envId g0 26912 = envId.transform 26912 CRS_GEO g0
    ∧ get_dem_for_geometry envId g0 26912 = .ok { grid := [[1, 2], [3, 4]], crs := CRS_UTM }
    ∧ get_flowlines_for_geometry envId g0 26912 = .ok { rows := [rowFlow], crs := CRS_UTM } := by
  have h := c1_fetchers_crs_invariant envId inCrsAll g0 26912
    (fun _ _ _ _ => rfl) rfl
  refine ⟨rfl, h.1, h.2.1 (by decide), ?_, ?_⟩
  · rw [h.2.2.2.1]
    rfl
  · rw [h.2.2.2.2.1]
    rfl

/-- C2 counterexample: starting from a filesystem with no persisted
index file, resolving an unknown id fails with the not-found error but
first builds and writes the index file, so the call does not leave the
persisted index file on disk unchanged (it creates it). -/
theorem c2_unknown_id_counterexample :
    fs0.existsFile index_path = false
    ∧ (get_huc10_geometry envId fs0 "not-a-real-id" CRS_GEO).1
        = .error (.valueError "HUC10 not-a-real-id not found in Arizona index")
    ∧ (get_huc10_geometry envId fs0 "not-a-real-id" CRS_GEO).2.existsFile index_path = true := by
  exact ⟨rfl, rfl, rfl⟩

/-- C2 (amended): for every id absent from the boundary index, resolve
fails with the not-found ValueError (the spec's NotFoundError) and never
returns a geometry; when the persisted index file already exists the
call leaves every file on disk unchanged, but when no index file exists
the call first builds and writes one before failing. -/
theorem c2_unknown_id_failure (env : Env) (fs : FS) (huc10_id : String) (crs : Nat)
    (l : String) (g : GeoDataFrame)
    (hfile : fs.files.lookup index_path = some (.vector l g))
    (habsent : matching_rows g huc10_id = []) :
    (get_huc10_geometry env fs huc10_id crs).1
      = .error (.valueError ("HUC10 " ++ huc10_id ++ " not found in Arizona index"))
    ∧ (get_huc10_geometry env fs huc10_id crs).2.files = fs.files := by
  unfold get_huc10_geometry
  rw [load_or_build_hit env fs l g hfile]
  simp only [habsent]
  refine ⟨?_, FS.mkdir_files fs DATA_DIR⟩
  trivial

/-- C2 witness: an index holding only id 1502001602, resolved at the
unknown id not-a-real-id. -/
theorem c2_unknown_id_failure_witness :
    fsIdx.files.lookup index_path = some (.vector "huc10" ⟨[rowIdx], CRS_GEO⟩)
    ∧ matching_rows ⟨[rowIdx], CRS_GEO⟩ "not-a-real-id" = []
    ∧ (get_huc10_geometry envId fsIdx "not-a-real-id" CRS_GEO).1
        = .error (.valueError "HUC10 not-a-real-id not found in Arizona index")
    ∧ (get_huc10_geometry envId fsIdx "not-a-real-id" CRS_GEO).2.files = fsIdx.files := by
  have h := c2_unknown_id_failure envId fsIdx "not-a-real-id" CRS_GEO "huc10"
    ⟨[rowIdx], CRS_GEO⟩ rfl rfl
  exact ⟨rfl, rfl, h.1, h.2⟩

/-- C3: if any one of the three Source Fetchers raises, the download
step of the orchestrator propagates that error, produces no partial
output set, and Output Persistence is never invoked (the filesystem is
returned unchanged). -/
theorem c3_fetch_failure_aborts (env : Env) (fs : FS) (geometry : Geom)
    (hid : String) (e : Err)
    (h : get_dem_for_geometry env geometry CRS_GEO = .error e
       ∨ ((∃ d, get_dem_for_geometry env geometry CRS_GEO = .ok d)
           ∧ get_flowlines_for_geometry env geometry CRS_GEO = .error e)
       ∨ ((∃ d, get_dem_for_geometry env geometry CRS_GEO = .ok d)
           ∧ (∃ f, get_flowlines_for_geometry env geometry CRS_GEO = .ok f)
           ∧ get_roads_for_geometry env geometry CRS_GEO = .error e)) :
    download_basin_data env geometry hid fs = (.error e, fs) := by
  unfold download_basin_data
  rcases h with h1 | ⟨⟨d, hd⟩, h2⟩ | ⟨⟨d, hd⟩, ⟨f, hf⟩, h3⟩
  · rw [h1]
  · rw [hd, h2]
  · rw [hd, hf, h3]

/-- C3 witness: with the DEM service unreachable, the download step
returns exactly that error and leaves the prior filesystem untouched. -/
theorem c3_fetch_failure_aborts_witness :
    get_dem_for_geometry envDemFail g0 CRS_GEO = .error (.libError "HTTP timeout")
    ∧ download_basin_data envDemFail g0 "1502001602" fsPrior
        = (.error (.libError "HTTP timeout"), fsPrior) := by
  refine ⟨rfl, ?_⟩
  exact c3_fetch_failure_aborts envDemFail fsPrior g0 "1502001602"
    (.libError "HTTP timeout") (Or.inl rfl)

/-- C4: load_or_build_az_huc10_index is a read-through cache: when the
persisted index file exists it reads and returns that file without
querying the remote boundary service (the result is identical under any
other environment); otherwise it queries WBD with the fixed AZ region
filter, normalizes the HUC10/Name column names, persists the full result
as the single index file and returns it. -/
theorem c4_index_read_through_cache (env env2 : Env) (fs : FS) (rows : List Row)
    (hmiss : fs.files.lookup index_path = none)
    (hsvc : env.wbdService WBD_LAYER az_sql = .ok rows)
    (hw : env.writeOk index_path = true) :
    (∀ fs2 l g, fs2.files.lookup index_path = some (.vector l g) →
        load_or_build_az_huc10_index env fs2 = (.ok g, fs2.mkdir DATA_DIR)
        ∧ load_or_build_az_huc10_index env fs2 = load_or_build_az_huc10_index env2 fs2)
    ∧ load_or_build_az_huc10_index env fs
        = (.ok (rename_cols ⟨rows, CRS_GEO⟩),
           (fs.mkdir DATA_DIR).write index_path (.vector "huc10" (rename_cols ⟨rows, CRS_GEO⟩))) := by
  constructor
  · intro fs2 l g hfile
    exact ⟨load_or_build_hit env fs2 l g hfile,
      (load_or_build_hit env fs2 l g hfile).trans (load_or_build_hit env2 fs2 l g hfile).symm⟩
  · exact load_or_build_miss env fs rows hmiss hsvc hw

/-- C4 witness: a build from the empty filesystem (the WBD row has its
columns renamed and the file is written) and a hit on the cached index
(returned verbatim, same result under an environment whose services
differ). -/
theorem c4_index_read_through_cache_witness :
    fs0.files.lookup index_path = none
    ∧ envId.wbdService WBD_LAYER az_sql = .ok [rowWbd]
    ∧ envId.writeOk index_path = true
    ∧ load_or_build_az_huc10_index envId fs0
        = (.ok ⟨[rowIdx], CRS_GEO⟩,
           (fs0.mkdir DATA_DIR).write index_path (.vector "huc10" ⟨[rowIdx], CRS_GEO⟩))
    ∧ load_or_build_az_huc10_index envId fsIdx = (.ok ⟨[rowIdx], CRS_GEO⟩, fsIdx.mkdir DATA_DIR)
    ∧ load_or_build_az_huc10_index envId fsIdx = load_or_build_az_huc10_index envDemFail fsIdx := by
  have h := c4_index_read_through_cache envId envDemFail fs0 [rowWbd] rfl rfl rfl
  have hhit := h.1 fsIdx "huc10" ⟨[rowIdx], CRS_GEO⟩ rfl
  exact ⟨rfl, rfl, rfl, h.2, hhit.1, hhit.2⟩

/-- C5: for every basin id present in the cached index and every
requested CRS, resolve returns the first matching row's geometry,
reprojected on the fly exactly when the index's native CRS differs from
the requested one; the result is non-empty and in the requested CRS
(under any sound interpretation of the library transform), the cached
index on disk is never modified, and resolving the same id twice in
a row returns identical results. -/
theorem c5_resolve_known_id (env : Env) (fs : FS) (huc10_id : String) (crs : Nat)
    (inCrs : Geom → Nat → Bool) (l : String) (g : GeoDataFrame) (r : Row) (rest : List Row)
    (hfile : fs.files.lookup index_path = some (.vector l g))
    (hmatch : matching_rows g huc10_id = r :: rest)
    (hne : r.geometry.points ≠ [])
    (hstored : inCrs r.geometry g.crs = true)
    (htrans : ∀ a b gm, inCrs gm a = true → inCrs (env.transform a b gm) b = true)
    (hlen : ∀ a b gm, (env.transform a b gm).points.length = gm.points.length) :
    (get_huc10_geometry env fs huc10_id crs).1
        = .ok (if g.crs ≠ crs then env.transform g.crs crs r.geometry else r.geometry)
    ∧ inCrs (if g.crs ≠ crs then env.transform g.crs crs r.geometry else r.geometry) crs = true
    ∧ (if g.crs ≠ crs then env.transform g.crs crs r.geometry else r.geometry).points ≠ []
    ∧ (get_huc10_geometry env fs huc10_id crs).2.files = fs.files
    ∧ get_huc10_geometry env (get_huc10_geometry env fs huc10_id crs).2 huc10_id crs
        = get_huc10_geometry env fs huc10_id crs := by
  have h := get_huc10_geometry_hit env fs huc10_id crs l g r rest hfile hmatch
  refine ⟨?_, ?_, ?_, ?_, ?_⟩
  · rw [h]
  · by_cases hc : g.crs ≠ crs
    · rw [if_pos hc]
      exact htrans _ _ _ hstored
    · rw [if_neg hc]
      push_neg at hc
      rw [← hc]
      exact hstored
  · by_cases hc : g.crs ≠ crs
    · rw [if_pos hc]
      intro habs
      apply hne
      have hl := hlen g.crs crs r.geometry
      rw [habs] at hl
      exact List.length_eq_zero.mp hl.symm
    · rw [if_neg hc]
      exact hne
  · rw [h]
    exact FS.mkdir_files fs DATA_DIR
  · rw [h]
    have hfile2 : (fs.mkdir DATA_DIR).files.lookup index_path = some (.vector l g) := by
      rw [FS.mkdir_files]
      exact hfile
    show get_huc10_geometry env (fs.mkdir DATA_DIR) huc10_id crs = _
    rw [get_huc10_geometry_hit env (fs.mkdir DATA_DIR) huc10_id crs l g r rest hfile2 hmatch,
      FS.mkdir_idem]

/-- C5 witness: resolving id 1502001602 from the cached one-row index at
the projected CRS 32612 (so the on-the-fly reprojection branch runs). -/
theorem c5_resolve_known_id_witness :
    fsIdx.files.lookup index_path = some (.vector "huc10" ⟨[rowIdx], CRS_GEO⟩)
    ∧ matching_rows ⟨[rowIdx], CRS_GEO⟩ "1502001602" = [rowIdx]
    ∧ g0.points ≠ []
    ∧ (get_huc10_geometry envId fsIdx "1502001602" CRS_UTM).1 = .ok g0
    ∧ inCrsAll g0 CRS_UTM = true
    ∧ (get_huc10_geometry envId fsIdx "1502001602" CRS_UTM).2.files = fsIdx.files
    ∧ get_huc10_geometry envId (get_huc10_geometry envId fsIdx "1502001602" CRS_UTM).2
        "1502001602" CRS_UTM
        = get_huc10_geometry envId fsIdx "1502001602" CRS_UTM := by
  have h := c5_resolve_known_id envId fsIdx "1502001602" CRS_UTM inCrsAll "huc10"
    ⟨[rowIdx], CRS_GEO⟩ rowIdx [] rfl rfl (by decide) rfl
    (fun _ _ _ _ => rfl) (fun _ _ _ => rfl)
  exact ⟨rfl, rfl, by decide, h.1, h.2.1, h.2.2.2.1, h.2.2.2.2⟩

/-- C6 counterexample: with the hydrography service reachable but
returning zero features, get_flowlines_for_geometry returns an empty
artifact with success rather than surfacing any error, so an empty
result is not surfaced as an EmptyResultError. -/
theorem c6_empty_result_counterexample :
    envNhdEmpty.nhdService "flowline" g0 CRS_GEO = .ok []
    ∧ get_flowlines_for_geometry envNhdEmpty g0 CRS_GEO = .ok { rows := [], crs := CRS_UTM }
    ∧ (get_flowlines_for_geometry envNhdEmpty g0 CRS_GEO).isOk = true := by
  exact ⟨rfl, rfl, rfl⟩

/-- C6 (amended): the repository defines no SourceUnavailableError or
EmptyResultError. An exception raised by the underlying client library
propagates out of the fetcher unchanged (not wrapped in a source-tagged
error), and an empty service result is returned as an empty artifact in
the projected CRS, with success. -/
theorem c6_error_propagation (env : Env) (geometry : Geom) (c : Nat) (e : Err) :
    (env.demService (geom_to_geo env geometry c) DEM_RES_M = .error e →
        get_dem_for_geometry env geometry c = .error e)
    ∧ (env.nhdService "flowline" (geom_to_geo env geometry c) CRS_GEO = .error e →
        get_flowlines_for_geometry env geometry c = .error e)
    ∧ (env.osmService (geom_to_geo env geometry c) "all_public" = .error e →
        get_roads_for_geometry env geometry c = .error e)
    ∧ (env.nhdService "flowline" (geom_to_geo env geometry c) CRS_GEO = .ok [] →
        get_flowlines_for_geometry env geometry c = .ok { rows := [], crs := CRS_UTM }) := by
  refine ⟨fun h => ?_, fun h => ?_, fun h => ?_, fun h => ?_⟩
  · simp [get_dem_for_geometry, h]
  · simp [get_flowlines_for_geometry, h]
  · simp [get_roads_for_geometry, h]
  · simp [get_flowlines_for_geometry, h, gdf_to_crs]

/-- C6 witness: a failing hydrography service propagates its library
exception unchanged, and so does a failing elevation service. -/
theorem c6_error_propagation_witness :
    envNhdFail.nhdService "flowline" (geom_to_geo envNhdFail g0 CRS_GEO) CRS_GEO
        = .error (.libError "connection refused")
    ∧ get_flowlines_for_geometry envNhdFail g0 CRS_GEO
        = .error (.libError "connection refused")
    ∧ envDemFail.demService (geom_to_geo envDemFail g0 CRS_GEO) DEM_RES_M
        = .error (.libError "HTTP timeout")
    ∧ get_dem_for_geometry envDemFail g0 CRS_GEO = .error (.libError "HTTP timeout") := by
  refine ⟨rfl, ?_, rfl, ?_⟩
  · exact (c6_error_propagation envNhdFail g0 CRS_GEO (.libError "connection refused")).2.1 rfl
  · exact (c6_error_propagation envDemFail g0 CRS_GEO (.libError "HTTP timeout")).1 rfl

/-- C7: persistence paths are deterministic and idempotent: when the
writes succeed, the persist step returns the per-id directory derived
only from the basin id together with the three fixed filenames
(dem_30m.tif, flowlines.gpkg, roads.gpkg), for any artifacts and any
prior filesystem state, so persisting twice for the same id returns the
same three file paths both times. -/
theorem c7_persist_paths_deterministic (env : Env) (hid : String)
    (dem dem2 : Raster) (flow flow2 roads roads2 : GeoDataFrame) (fs fs2 : FS)
    (hw : ∀ p, env.writeOk p = true) :
    (persist_outputs env hid dem flow roads fs).1
      = .ok (DATA_DIR ++ "/huc10_" ++ hid,
             DATA_DIR ++ "/huc10_" ++ hid ++ "/dem_30m.tif",
             DATA_DIR ++ "/huc10_" ++ hid ++ "/flowlines.gpkg",
             DATA_DIR ++ "/huc10_" ++ hid ++ "/roads.gpkg")
    ∧ (persist_outputs env hid dem flow roads fs).1
        = (persist_outputs env hid dem2 flow2 roads2 fs2).1 := by
  have key : ∀ (d : Raster) (f r : GeoDataFrame) (s : FS),
      (persist_outputs env hid d f r s).1
        = .ok (DATA_DIR ++ "/huc10_" ++ hid,
               DATA_DIR ++ "/huc10_" ++ hid ++ "/dem_30m.tif",
               DATA_DIR ++ "/huc10_" ++ hid ++ "/flowlines.gpkg",
               DATA_DIR ++ "/huc10_" ++ hid ++ "/roads.gpkg") := by
    intro d f r s
    unfold persist_outputs make_huc_output_dir save_dem save_flowlines save_roads
    simp [hw]
  exact ⟨key dem flow roads fs, (key dem flow roads fs).trans (key dem2 flow2 roads2 fs2).symm⟩

/-- C7 witness: persisting concrete artifacts for id 1502001602 twice in
a row (the second run starting from the first run's filesystem) returns
the same three paths. -/
theorem c7_persist_paths_deterministic_witness :
    (persist_outputs envId "1502001602" demOld ⟨[rowFlow], CRS_UTM⟩ ⟨[rowFlow], CRS_UTM⟩ fs0).1
      = .ok ("data/huc10_1502001602",
             "data/huc10_1502001602/dem_30m.tif",
             "data/huc10_1502001602/flowlines.gpkg",
             "data/huc10_1502001602/roads.gpkg")
    ∧ (persist_outputs envId "1502001602" demOld ⟨[rowFlow], CRS_UTM⟩ ⟨[rowFlow], CRS_UTM⟩ fs0).1
        = (persist_outputs envId "1502001602" demOld ⟨[rowFlow], CRS_UTM⟩ ⟨[rowFlow], CRS_UTM⟩
            (persist_outputs envId "1502001602" demOld ⟨[rowFlow], CRS_UTM⟩ ⟨[rowFlow], CRS_UTM⟩
              fs0).2).1 := by
  have h := c7_persist_paths_deterministic envId "1502001602" demOld demOld
    ⟨[rowFlow], CRS_UTM⟩ ⟨[rowFlow], CRS_UTM⟩ ⟨[rowFlow], CRS_UTM⟩ ⟨[rowFlow], CRS_UTM⟩
    fs0
    ((persist_outputs envId "1502001602" demOld ⟨[rowFlow], CRS_UTM⟩ ⟨[rowFlow], CRS_UTM⟩ fs0).2)
    (fun _ => rfl)
  exact ⟨h.1, h.2⟩

/-- C8 counterexample: starting from prior successfully persisted output
for id 1502001602, a run whose fetches succeed but whose flowlines write
fails still overwrites the prior DEM file (save_dem runs first), so a
failed run does overwrite prior successful output. -/
theorem c8_overwrite_counterexample :
    fsPrior.read "data/huc10_1502001602/dem_30m.tif" = some (.raster demOld)
    ∧ (download_basin_data envFlowWriteFail g0 "1502001602" fsPrior).1
        = .error (.osError "data/huc10_1502001602/flowlines.gpkg")
    ∧ (download_basin_data envFlowWriteFail g0 "1502001602" fsPrior).2.read
        "data/huc10_1502001602/dem_30m.tif" = some (.raster demNew)
    ∧ demNew ≠ demOld := by
  exact ⟨rfl, rfl, rfl, by decide⟩

/-- C8 (amended): when a fetch fails, nothing is persisted and every
previously persisted file keeps its contents; but when the persist step
itself fails partway, the artifacts saved before the failing step have
already been overwritten — with a succeeding DEM write and a failing
flowlines write, the failed run leaves the new DEM raster in the prior
DEM file. -/
theorem c8_failure_preservation (env : Env) (fs : FS) (geometry : Geom)
    (hid : String) (p : String) :
    ((∃ e, get_dem_for_geometry env geometry CRS_GEO = .error e)
      ∨ (∃ e, get_flowlines_for_geometry env geometry CRS_GEO = .error e)
      ∨ (∃ e, get_roads_for_geometry env geometry CRS_GEO = .error e) →
        (download_basin_data env geometry hid fs).2.read p = fs.read p)
    ∧ (∀ d f r, get_dem_for_geometry env geometry CRS_GEO = .ok d →
        get_flowlines_for_geometry env geometry CRS_GEO = .ok f →
        get_roads_for_geometry env geometry CRS_GEO = .ok r →
        env.writeOk (DATA_DIR ++ "/huc10_" ++ hid ++ "/dem_30m.tif") = true →
        env.writeOk (DATA_DIR ++ "/huc10_" ++ hid ++ "/flowlines.gpkg") = false →
        (download_basin_data env geometry hid fs).1
            = .error (.osError (DATA_DIR ++ "/huc10_" ++ hid ++ "/flowlines.gpkg"))
          ∧ (download_basin_data env geometry hid fs).2.read
              (DATA_DIR ++ "/huc10_" ++ hid ++ "/dem_30m.tif") = some (.raster d)) := by
  constructor
  · intro h
    have habort : ∃ e2, download_basin_data env geometry hid fs = (.error e2, fs) := by
      rcases h with ⟨e, he⟩ | ⟨e, he⟩ | ⟨e, he⟩
      · exact ⟨e, by unfold download_basin_data; rw [he]⟩
      · cases hd : get_dem_for_geometry env geometry CRS_GEO with
        | error e2 => exact ⟨e2, by unfold download_basin_data; rw [hd]⟩
        | ok d => exact ⟨e, by unfold download_basin_data; rw [hd, he]⟩
      · cases hd : get_dem_for_geometry env geometry CRS_GEO with
        | error e2 => exact ⟨e2, by unfold download_basin_data; rw [hd]⟩
        | ok d =>
            cases hf : get_flowlines_for_geometry env geometry CRS_GEO with
            | error e2 => exact ⟨e2, by unfold download_basin_data; rw [hd, hf]⟩
            | ok f => exact ⟨e, by unfold download_basin_data; rw [hd, hf, he]⟩
    obtain ⟨e2, heq⟩ := habort
    rw [heq]
  · intro d f r hd hf hr hwd hwf
    unfold download_basin_data
    rw [hd, hf, hr]
    unfold persist_outputs make_huc_output_dir save_dem save_flowlines
    simp only [hwd, if_true, hwf, Bool.false_eq_true, if_false]
    refine ⟨?_, FS.read_write_self _ _ _⟩
    trivial

/-- C8 witness: under a DEM-service failure the prior DEM file is
untouched; under a failing flowlines write after a successful DEM write
the prior DEM file holds the new raster. -/
theorem c8_failure_preservation_witness :
    (download_basin_data envDemFail g0 "1502001602" fsPrior).2.read
        "data/huc10_1502001602/dem_30m.tif" = some (.raster demOld)
    ∧ (download_basin_data envFlowWriteFail g0 "1502001602" fsPrior).1
        = .error (.osError "data/huc10_1502001602/flowlines.gpkg")
    ∧ (download_basin_data envFlowWriteFail g0 "1502001602" fsPrior).2.read
        "data/huc10_1502001602/dem_30m.tif" = some (.raster demNew) := by
  have h1 := (c8_failure_preservation envDemFail fsPrior g0 "1502001602"
    "data/huc10_1502001602/dem_30m.tif").1
    (Or.inl ⟨.libError "HTTP timeout", rfl⟩)
  have h2 := (c8_failure_preservation envFlowWriteFail fsPrior g0 "1502001602"
    "data/huc10_1502001602/dem_30m.tif").2
    demNew ⟨[rowFlow], CRS_UTM⟩ ⟨[rowFlow], CRS_UTM⟩ rfl rfl rfl rfl rfl
  exact ⟨h1.trans rfl, h2.1, h2.2⟩

/-- C9: if the boundary index contains more than one row with the same
huc10 id, resolve returns the geometry of the first matching row and
silently ignores the rest: the result is the same for any tail of
further matching rows, and no operation checks or enforces uniqueness
(no error is raised on a duplicated index). -/
theorem c9_duplicate_ids_first_row (env : Env) (fs : FS) (huc10_id : String) (crs : Nat)
    (l : String) (g : GeoDataFrame) (r : Row) (rest : List Row)
    (hfile : fs.files.lookup index_path = some (.vector l g))
    (hmatch : matching_rows g huc10_id = r :: rest) :
    (get_huc10_geometry env fs huc10_id crs).1
      = .ok (if g.crs ≠ crs then env.transform g.crs crs r.geometry else r.geometry) := by
  rw [get_huc10_geometry_hit env fs huc10_id crs l g r rest hfile hmatch]

/-- C9 witness: an index with two rows sharing id 1502001602 but
different geometries resolves to the first row's geometry with no
error. -/
theorem c9_duplicate_ids_first_row_witness :
    matching_rows ⟨[rowIdx, rowDup], CRS_GEO⟩ "1502001602" = [rowIdx, rowDup]
    ∧ rowIdx.geometry ≠ rowDup.geometry
    ∧ (get_huc10_geometry envId fsDup "1502001602" CRS_GEO).1 = .ok g0 := by
  refine ⟨by decide, by decide, ?_⟩
  exact c9_duplicate_ids_first_row envId fsDup "1502001602" CRS_GEO "huc10"
    ⟨[rowIdx, rowDup], CRS_GEO⟩ rowIdx [rowDup] rfl (by decide)

/-- C10: on a cache hit, load_or_build_az_huc10_index returns exactly
the contents of the persisted index file with no column renaming or
validation (identically under any other environment); the huc10/name
column normalization is applied only on the build path, before the file
is first written, so the columns returned on a hit depend solely on what
the file contains. -/
theorem c10_cache_hit_verbatim (env env2 : Env) (fs : FS) (l : String) (g : GeoDataFrame)
    (hfile : fs.files.lookup index_path = some (.vector l g)) :
    (load_or_build_az_huc10_index env fs).1 = .ok g
    ∧ (load_or_build_az_huc10_index env fs).1 = (load_or_build_az_huc10_index env2 fs).1
    ∧ (∀ (fsm : FS) (rows : List Row), fsm.files.lookup index_path = none →
        env.wbdService WBD_LAYER az_sql = .ok rows →
        env.writeOk index_path = true →
        (load_or_build_az_huc10_index env fsm).1 = .ok (rename_cols ⟨rows, CRS_GEO⟩)
        ∧ (load_or_build_az_huc10_index env fsm).2.read index_path
            = some (.vector "huc10" (rename_cols ⟨rows, CRS_GEO⟩))) := by
  refine ⟨?_, ?_, ?_⟩
  · rw [load_or_build_hit env fs l g hfile]
  · rw [load_or_build_hit env fs l g hfile, load_or_build_hit env2 fs l g hfile]
  · intro fsm rows hmiss hsvc hw
    rw [load_or_build_miss env fsm rows hmiss hsvc hw]
    exact ⟨rfl, FS.read_write_self _ _ _⟩

/-- C10 witness: a hit on an index file whose columns were never renamed
returns those raw columns verbatim (and renaming would have changed
them), while a build from the empty filesystem renames before
writing. -/
theorem c10_cache_hit_verbatim_witness :
    (load_or_build_az_huc10_index envId fsIdxRaw).1 = .ok ⟨[rowWbd], CRS_GEO⟩
    ∧ rename_cols ⟨[rowWbd], CRS_GEO⟩ ≠ (⟨[rowWbd], CRS_GEO⟩ : GeoDataFrame)
    ∧ (load_or_build_az_huc10_index envId fs0).1 = .ok ⟨[rowIdx], CRS_GEO⟩
    ∧ (load_or_build_az_huc10_index envId fs0).2.read index_path
        = some (.vector "huc10" ⟨[rowIdx], CRS_GEO⟩) := by
  have h := c10_cache_hit_verbatim envId envDemFail fsIdxRaw "huc10" ⟨[rowWbd], CRS_GEO⟩ rfl
  have h2 := h.2.2 fs0 [rowWbd] rfl rfl rfl
  exact ⟨h.1, by decide, h2.1, h2.2⟩

end BasinData
